import Mathlib

/-
Shallow embedding of the state-and-rendering engine of the two-player life
counter (class GameState in src/main.js).  DOM reads and writes (render,
renderLife, indicator text and CSS classes) are presentation-only and carry
no state, so they are omitted; everything that mutates fields of the
GameState object is modelled.  setTimeout is modelled by storing the
absolute deadline (schedule time + delay) in the corresponding timeout
field; clearTimeout by setting it to none; the event loop by runUntil,
which fires every stored callback whose deadline has been reached, in
deadline order.  A timeout id whose callback has already run is inert in
JavaScript, so a fired timer is likewise represented by none.
-/

/-- Numbers as this program produces them: an integer, or the NaN that
parseInt returns on non-numeric input.  Adding an integer to NaN yields
NaN, as in JavaScript. -/
inductive JNum where
  | int : Int → JNum
  | nan : JNum
deriving DecidableEq

/-- Addition of an integer delta to a possibly-NaN number. -/
def JNum.add : JNum → Int → JNum
  | JNum.int n, a => JNum.int (n + a)
  | JNum.nan, _ => JNum.nan

/-- An hsl(h, s%, l%) color string, modelled by its three numeric
components (the source builds the literal string `hsl(h, 85%, 50%)`). -/
structure HSL where
  hue : Nat
  sat : Nat
  light : Nat
deriving DecidableEq

/-- One entry pushed onto this.history by the scheduleHistory callback.
The source formats the wall-clock time with toLocaleTimeString; here the
timestamp is the virtual time at which the callback fired. -/
structure HistoryEntry where
  player : Nat
  amount : Int
  newLife : JNum
  timestamp : Nat
deriving DecidableEq

/-- The fields of class GameState (src/main.js, constructor).  Timeout
fields hold the absolute deadline of the pending setTimeout callback, or
none when no callback is pending. -/
structure GameState where
  p1Color : HSL
  p2Color : HSL
  p1StartLife : JNum
  p2StartLife : JNum
  p1Life : JNum
  p2Life : JNum
  history : List HistoryEntry
  p1Change : Int
  p2Change : Int
  changeTimeoutP1 : Option Nat
  changeTimeoutP2 : Option Nat
  historyBufferP1 : Int
  historyBufferP2 : Int
  historyTimeoutP1 : Option Nat
  historyTimeoutP2 : Option Nat
deriving DecidableEq

/-- Longest leading run of decimal digits. -/
def leadingDigits (cs : List Char) : List Char :=
  cs.takeWhile (fun c => c.isDigit)

/-- Value of a digit string. -/
def digitsToNat (ds : List Char) : Nat :=
  ds.foldl (fun acc c => acc * 10 + (c.toNat - 48)) 0

/-- JavaScript parseInt(val) as the source calls it (no explicit radix):
skip leading spaces, read an optional sign and then the longest decimal
digit run; NaN when no digit is found.  The 0x hex prefix special case is
not modelled; the inputs considered are decimal strings and words. -/
def parseInt (v : String) : JNum :=
  let cs := v.data.dropWhile (fun c => c = ' ')
  match cs with
  | '-' :: rest =>
      let ds := leadingDigits rest
      if ds.isEmpty then JNum.nan else JNum.int (-(digitsToNat ds : Int))
  | '+' :: rest =>
      let ds := leadingDigits rest
      if ds.isEmpty then JNum.nan else JNum.int (digitsToNat ds : Int)
  | _ =>
      let ds := leadingDigits cs
      if ds.isEmpty then JNum.nan else JNum.int (digitsToNat ds : Int)

/-- The GameState constructor, parameterised by the random base hue
h = Math.floor(Math.random() * 360), which lies in [0, 360). -/
def initState (h : Nat) : GameState :=
  { p1Color := ⟨h, 85, 50⟩
    p2Color := ⟨(h + 180) % 360, 85, 50⟩
    p1StartLife := JNum.int 40
    p2StartLife := JNum.int 40
    p1Life := JNum.int 40
    p2Life := JNum.int 40
    history := []
    p1Change := 0
    p2Change := 0
    changeTimeoutP1 := none
    changeTimeoutP2 := none
    historyBufferP1 := 0
    historyBufferP2 := 0
    historyTimeoutP1 := none
    historyTimeoutP2 := none }

/-- showChange(player), called at time now: updates the DOM indicator (not
modelled), clears any pending change timeout and schedules a new 3000ms
one; its callback later hides the indicator and zeroes the change value. -/
def showChange (now : Nat) (p : Nat) (s : GameState) : GameState :=
  if p = 1 then { s with changeTimeoutP1 := some (now + 3000) }
  else { s with changeTimeoutP2 := some (now + 3000) }

/-- scheduleHistory(player), called at time now: clears any pending history
timeout and schedules a new 2000ms one. -/
def scheduleHistory (now : Nat) (p : Nat) (s : GameState) : GameState :=
  if p = 1 then { s with historyTimeoutP1 := some (now + 2000) }
  else { s with historyTimeoutP2 := some (now + 2000) }

/-- updateLife(player, amount), called at time now: adds amount to the
player's life, change value and history buffer, then restarts both of that
player's timers via showChange and scheduleHistory; render() only redraws
the DOM. -/
def updateLife (now : Nat) (p : Nat) (a : Int) (s : GameState) : GameState :=
  let s1 :=
    if p = 1 then
      { s with p1Life := s.p1Life.add a
               p1Change := s.p1Change + a
               historyBufferP1 := s.historyBufferP1 + a }
    else
      { s with p2Life := s.p2Life.add a
               p2Change := s.p2Change + a
               historyBufferP2 := s.historyBufferP2 + a }
  scheduleHistory now p (showChange now p s1)

/-- reset(): restores both lives to their start values, clears the history
list and both change values, then redraws.  The source does not touch the
history buffers and does not cancel any of the four timeouts. -/
def reset (s : GameState) : GameState :=
  { s with p1Life := s.p1StartLife
           p2Life := s.p2StartLife
           history := []
           p1Change := 0
           p2Change := 0 }

/-- setStartLife(player, val): stores parseInt(val) as the player's start
life unconditionally, then calls reset(). -/
def setStartLife (p : Nat) (v : String) (s : GameState) : GameState :=
  let s1 :=
    if p = 1 then { s with p1StartLife := parseInt v }
    else { s with p2StartLife := parseInt v }
  reset s1

/-- Body of the callback scheduled by scheduleHistory for player p, firing
at time t: reads the buffered amount and, when it is non-zero, appends a
history entry carrying the player's current life, zeroes the buffer and
redraws the history list. -/
def fireHistory (t : Nat) (p : Nat) (s : GameState) : GameState :=
  if p = 1 then
    let amount := s.historyBufferP1
    let s1 := { s with historyTimeoutP1 := none }
    if amount = 0 then s1
    else { s1 with history := s1.history ++ [⟨1, amount, s1.p1Life, t⟩]
                   historyBufferP1 := 0 }
  else
    let amount := s.historyBufferP2
    let s1 := { s with historyTimeoutP2 := none }
    if amount = 0 then s1
    else { s1 with history := s1.history ++ [⟨2, amount, s1.p2Life, t⟩]
                   historyBufferP2 := 0 }

/-- Body of the callback scheduled by showChange for player p: hides the
DOM indicator (not modelled) and zeroes the player's change value. -/
def fireChange (p : Nat) (s : GameState) : GameState :=
  if p = 1 then { s with p1Change := 0, changeTimeoutP1 := none }
  else { s with p2Change := 0, changeTimeoutP2 := none }

/-- The four setTimeout callbacks a GameState can have pending. -/
inductive TimerTag where
  | hist1 | hist2 | chg1 | chg2
deriving DecidableEq

/-- The pending callbacks whose deadline has been reached by time t. -/
def pendingAt (t : Nat) (s : GameState) : List (TimerTag × Nat) :=
  ([(TimerTag.hist1, s.historyTimeoutP1), (TimerTag.hist2, s.historyTimeoutP2),
    (TimerTag.chg1, s.changeTimeoutP1), (TimerTag.chg2, s.changeTimeoutP2)]).filterMap
    (fun x => match x.2 with
      | some d => if d ≤ t then some (x.1, d) else none
      | none => none)

/-- Earliest-deadline element of a list of due callbacks (ties broken by
list position). -/
def pickMin : List (TimerTag × Nat) → Option (TimerTag × Nat)
  | [] => none
  | x :: xs =>
      match pickMin xs with
      | none => some x
      | some y => if x.2 ≤ y.2 then some x else some y

/-- Run the callback named by a tag at its deadline time. -/
def fireTag (tag : TimerTag) (t : Nat) (s : GameState) : GameState :=
  match tag with
  | TimerTag.hist1 => fireHistory t 1 s
  | TimerTag.hist2 => fireHistory t 2 s
  | TimerTag.chg1 => fireChange 1 s
  | TimerTag.chg2 => fireChange 2 s

/-- Event-loop driver with fuel: fire the due callback with the earliest
deadline, repeat.  None of the callbacks schedules a new timer, so at most
four can ever be due and fuel 4 is exact. -/
def runAux : Nat → Nat → GameState → GameState
  | 0, _, s => s
  | Nat.succ k, t, s =>
      match pickMin (pendingAt t s) with
      | none => s
      | some x => runAux k t (fireTag x.1 x.2 s)

/-- Advance virtual time to t: fire every pending callback whose deadline
is at most t, in deadline order. -/
def runUntil (t : Nat) (s : GameState) : GameState :=
  runAux 4 t s

/-- Current life of a player, the read accessor the claims speak of. -/
def lifeOf (p : Nat) (s : GameState) : JNum :=
  if p = 1 then s.p1Life else s.p2Life

/-- Transient pending delta (the change value) of a player. -/
def changeOf (p : Nat) (s : GameState) : Int :=
  if p = 1 then s.p1Change else s.p2Change

/-- History buffer of a player. -/
def bufferOf (p : Nat) (s : GameState) : Int :=
  if p = 1 then s.historyBufferP1 else s.historyBufferP2

/-- Start life of a player. -/
def startLifeOf (p : Nat) (s : GameState) : JNum :=
  if p = 1 then s.p1StartLife else s.p2StartLife

/-- Pending history-track deadline of a player. -/
def histDeadlineOf (p : Nat) (s : GameState) : Option Nat :=
  if p = 1 then s.historyTimeoutP1 else s.historyTimeoutP2

/-- Pending display-track deadline of a player. -/
def chgDeadlineOf (p : Nat) (s : GameState) : Option Nat :=
  if p = 1 then s.changeTimeoutP1 else s.changeTimeoutP2

/-- A sequence of updateLife calls for one player, each given as
(call time, amount), applied left to right. -/
def applyDeltas (p : Nat) (l : List (Nat × Int)) (s : GameState) : GameState :=
  l.foldl (fun s x => updateLife x.1 p x.2 s) s

/-- States reachable from a freshly constructed GameState through the
public operations and the firing of scheduled callbacks. -/
inductive Reachable : GameState → Prop where
  | start : ∀ h, Reachable (initState h)
  | update : ∀ s now p a, Reachable s → Reachable (updateLife now p a s)
  | doReset : ∀ s, Reachable s → Reachable (reset s)
  | config : ∀ s p v, Reachable s → Reachable (setStartLife p v s)
  | fire : ∀ s tag t, Reachable s → Reachable (fireTag tag t s)

/-- Adding a zero delta leaves a possibly-NaN number unchanged. -/
theorem JNum.add_zero (x : JNum) : x.add 0 = x := by
  cases x <;> simp [JNum.add]

/-- updateLife never touches the history list; entries are appended only by
the scheduleHistory callback. -/
theorem updateLife_history (now p : Nat) (a : Int) (s : GameState) :
    (updateLife now p a s).history = s.history := by
  by_cases hp : p = 1 <;> simp [updateLife, showChange, scheduleHistory, hp]

/-- updateLife never touches the two player colors. -/
theorem updateLife_colors (now p : Nat) (a : Int) (s : GameState) :
    (updateLife now p a s).p1Color = s.p1Color ∧
    (updateLife now p a s).p2Color = s.p2Color := by
  by_cases hp : p = 1 <;> simp [updateLife, showChange, scheduleHistory, hp]

/-- The showChange callback never touches the history list. -/
theorem fireChange_history (p : Nat) (s : GameState) :
    (fireChange p s).history = s.history := by
  by_cases hp : p = 1 <;> simp [fireChange, hp]

/-- The scheduleHistory callback preserves the invariant that every history
entry has a non-zero amount: it appends an entry only when the buffered
amount is non-zero. -/
theorem fireHistory_amounts (t p : Nat) (s : GameState)
    (ih : ∀ e ∈ s.history, e.amount ≠ 0) :
    ∀ e ∈ (fireHistory t p s).history, e.amount ≠ 0 := by
  by_cases hp : p = 1
  · by_cases hb : s.historyBufferP1 = 0
    · simpa [fireHistory, hp, hb] using ih
    · simp only [fireHistory, hp, if_true, if_neg hb, List.mem_append, List.mem_singleton]
      intro e he
      rcases he with he | rfl
      · exact ih e he
      · exact hb
  · by_cases hb : s.historyBufferP2 = 0
    · simpa [fireHistory, hp, hb] using ih
    · simp only [fireHistory, hp, if_false, if_neg hb, List.mem_append, List.mem_singleton]
      intro e he
      rcases he with he | rfl
      · exact ih e he
      · exact hb

/-- In every reachable state, every entry of the history list carries a
non-zero amount. -/
theorem history_amounts_ne_zero (s : GameState) (hs : Reachable s) :
    ∀ e ∈ s.history, e.amount ≠ 0 := by
  induction hs with
  | start h => simp [initState]
  | update s now p a hs ih => simpa [updateLife_history] using ih
  | doReset s hs ih => simp [reset]
  | config s p v hs ih => simp [setStartLife, reset]
  | fire s tag t hs ih =>
      cases tag with
      | hist1 => exact fireHistory_amounts t 1 s ih
      | hist2 => exact fireHistory_amounts t 2 s ih
      | chg1 => simpa [fireChange_history] using ih
      | chg2 => simpa [fireChange_history] using ih

/-- A sequence of updateLife calls for player 1 adds the sum of its amounts
to both the history buffer and the change value of player 1, whatever the
call times. -/
theorem applyDeltas_sums1 (l : List (Nat × Int)) (s : GameState) :
    (applyDeltas 1 l s).historyBufferP1 = s.historyBufferP1 + (l.map Prod.snd).sum ∧
    (applyDeltas 1 l s).p1Change = s.p1Change + (l.map Prod.snd).sum := by
  induction l generalizing s with
  | nil => simp [applyDeltas]
  | cons x xs ih =>
      have hstep : applyDeltas 1 (x :: xs) s = applyDeltas 1 xs (updateLife x.1 1 x.2 s) := rfl
      rw [hstep]
      obtain ⟨h1, h2⟩ := ih (updateLife x.1 1 x.2 s)
      refine ⟨?_, ?_⟩
      · rw [h1]; simp [updateLife, showChange, scheduleHistory]; ring
      · rw [h2]; simp [updateLife, showChange, scheduleHistory]; ring

/-- A sequence of updateLife calls for player 2 adds the sum of its amounts
to both the history buffer and the change value of player 2, whatever the
call times. -/
theorem applyDeltas_sums2 (l : List (Nat × Int)) (s : GameState) :
    (applyDeltas 2 l s).historyBufferP2 = s.historyBufferP2 + (l.map Prod.snd).sum ∧
    (applyDeltas 2 l s).p2Change = s.p2Change + (l.map Prod.snd).sum := by
  induction l generalizing s with
  | nil => simp [applyDeltas]
  | cons x xs ih =>
      have hstep : applyDeltas 2 (x :: xs) s = applyDeltas 2 xs (updateLife x.1 2 x.2 s) := rfl
      rw [hstep]
      obtain ⟨h1, h2⟩ := ih (updateLife x.1 2 x.2 s)
      refine ⟨?_, ?_⟩
      · rw [h1]; simp [updateLife, showChange, scheduleHistory]; ring
      · rw [h2]; simp [updateLife, showChange, scheduleHistory]; ring

/-- Shifting a hue below 360 by half the circle never returns the same hue. -/
theorem hue_shift_ne (h : Nat) (hh : h < 360) : (h + 180) % 360 ≠ h := by
  rcases Nat.lt_or_ge h 180 with h1 | h1
  · rw [Nat.mod_eq_of_lt (by omega)]; omega
  · rw [Nat.mod_eq_sub_mod (by omega), Nat.mod_eq_of_lt (by omega)]; omega

/-- C1: the claim fails on the code.  reset() does not cancel the pending
timers and does not clear the history buffers, so after updateLife(1, 5) at
t = 0 and reset() at once, the history timer scheduled before the reset is
still pending and fires at t = 2000, appending a stale entry with amount 5
and the already-restored life 40 to the freshly cleared history. -/
theorem claim_C1_stale_flush :
    (reset (updateLife 0 1 5 (initState 0))).history = [] ∧
    (reset (updateLife 0 1 5 (initState 0))).p1Life = JNum.int 40 ∧
    (reset (updateLife 0 1 5 (initState 0))).historyTimeoutP1 = some 2000 ∧
    (runUntil 5000 (reset (updateLife 0 1 5 (initState 0)))).history
      = [⟨1, 5, JNum.int 40, 2000⟩] := by
  decide

/-- C2: counterexample to the claim as stated.  setStartLife(2, "abc")
does not retain the previous startLife of player 2: it overwrites the
start life 40 with the NaN produced by parseInt and adopts it into the
current life through the reset it performs. -/
theorem claim_C2_counterexample :
    (setStartLife 2 "abc" (initState 0)).p2StartLife ≠ (initState 0).p2StartLife ∧
    (setStartLife 2 "abc" (initState 0)).p2StartLife = JNum.nan ∧
    (setStartLife 2 "abc" (initState 0)).p2Life = JNum.nan := by
  decide

/-- C2 (amended): for every player p in \x7b1, 2\x7d and every string whose
parseInt is NaN, setStartLife(p, value) is not rejected: it stores NaN as
that player's startLife, performs a full reset, and thereby makes that
player's currentLife NaN as well and empties the history. -/
theorem claim_C2_amended (p : Nat) (v : String) (s : GameState)
    (hp : p = 1 ∨ p = 2) (hv : parseInt v = JNum.nan) :
    startLifeOf p (setStartLife p v s) = JNum.nan ∧
    lifeOf p (setStartLife p v s) = JNum.nan ∧
    (setStartLife p v s).history = [] := by
  rcases hp with rfl | rfl <;>
    simp [setStartLife, reset, startLifeOf, lifeOf, hv]

/-- Witness for the amended C2 at player 2 and input "abc". -/
theorem claim_C2_witness :
    parseInt "abc" = JNum.nan ∧
    startLifeOf 2 (setStartLife 2 "abc" (initState 0)) = JNum.nan ∧
    lifeOf 2 (setStartLife 2 "abc" (initState 0)) = JNum.nan ∧
    (setStartLife 2 "abc" (initState 0)).history = [] := by
  have h := claim_C2_amended 2 "abc" (initState 0) (Or.inr rfl) (by decide)
  exact ⟨by decide, h.1, h.2.1, h.2.2⟩

/-- C3: counterexample to the claim as stated.  updateLife(1, 0) at
t = 1500, after updateLife(1, 5) at t = 0, does not leave player 1's
debounce timers unchanged: the history deadline moves from 2000 to 3500
and the display deadline from 3000 to 4500. -/
theorem claim_C3_counterexample :
    (updateLife 1500 1 0 (updateLife 0 1 5 (initState 0))).historyTimeoutP1
      ≠ (updateLife 0 1 5 (initState 0)).historyTimeoutP1 ∧
    (updateLife 1500 1 0 (updateLife 0 1 5 (initState 0))).changeTimeoutP1
      ≠ (updateLife 0 1 5 (initState 0)).changeTimeoutP1 := by
  decide

/-- C3 (amended): for every player p in \x7b1, 2\x7d, updateLife(p, 0) leaves
currentLife, pendingDelta, historyBuffer and the history sequence
unchanged, but restarts both of that player's debounce windows from the
call time (2000ms history, 3000ms display). -/
theorem claim_C3_amended (now p : Nat) (s : GameState) (hp : p = 1 ∨ p = 2) :
    lifeOf p (updateLife now p 0 s) = lifeOf p s ∧
    changeOf p (updateLife now p 0 s) = changeOf p s ∧
    bufferOf p (updateLife now p 0 s) = bufferOf p s ∧
    (updateLife now p 0 s).history = s.history ∧
    histDeadlineOf p (updateLife now p 0 s) = some (now + 2000) ∧
    chgDeadlineOf p (updateLife now p 0 s) = some (now + 3000) := by
  rcases hp with rfl | rfl <;>
    simp [updateLife, showChange, scheduleHistory, lifeOf, changeOf, bufferOf,
      histDeadlineOf, chgDeadlineOf, JNum.add_zero]

/-- Witness for the amended C3 at player 1 from a fresh state. -/
theorem claim_C3_witness :
    ((1:Nat) = 1 ∨ (1:Nat) = 2) ∧
    lifeOf 1 (updateLife 0 1 0 (initState 0)) = lifeOf 1 (initState 0) ∧
    histDeadlineOf 1 (updateLife 0 1 0 (initState 0)) = some 2000 := by
  have h := claim_C3_amended 0 1 (initState 0) (Or.inl rfl)
  exact ⟨Or.inl rfl, h.1, h.2.2.2.2.1⟩

/-- C5: for each player, after any finite sequence of updateLife calls for
that player with no intervening timer firing or reset, both the pending
delta and the history buffer equal the arithmetic sum of all amounts
applied, starting from a state with empty buffers. -/
theorem claim_C5 (p : Nat) (l : List (Nat × Int)) (s : GameState)
    (hp : p = 1 ∨ p = 2) (hb : bufferOf p s = 0) (hc : changeOf p s = 0) :
    bufferOf p (applyDeltas p l s) = (l.map Prod.snd).sum ∧
    changeOf p (applyDeltas p l s) = (l.map Prod.snd).sum := by
  rcases hp with rfl | rfl
  · obtain ⟨h1, h2⟩ := applyDeltas_sums1 l s
    simp only [bufferOf, changeOf, if_pos] at hb hc ⊢
    rw [h1, h2, hb, hc]
    simp
  · obtain ⟨h1, h2⟩ := applyDeltas_sums2 l s
    simp only [bufferOf, changeOf] at hb hc ⊢
    norm_num at hb hc ⊢
    rw [h1, h2, hb, hc]
    simp

/-- Witness for C5 at player 1 with deltas 3 and 4. -/
theorem claim_C5_witness :
    bufferOf 1 (initState 0) = 0 ∧ changeOf 1 (initState 0) = 0 ∧
    bufferOf 1 (applyDeltas 1 [(0, 3), (1000, 4)] (initState 0))
      = ([((0:Nat), (3:Int)), (1000, 4)].map Prod.snd).sum ∧
    changeOf 1 (applyDeltas 1 [(0, 3), (1000, 4)] (initState 0))
      = ([((0:Nat), (3:Int)), (1000, 4)].map Prod.snd).sum := by
  have h := claim_C5 1 [(0, 3), (1000, 4)] (initState 0) (Or.inl rfl)
    (by decide) (by decide)
  exact ⟨by decide, by decide, h.1, h.2⟩

/-- C6: when a player's accumulated history buffer is exactly 0 at the
moment the history window expires, the flush callback appends nothing; and
in every reachable state every history entry has a non-zero amount. -/
theorem claim_C6 (t p : Nat) (s : GameState) (hs : Reachable s)
    (hb : bufferOf p s = 0) :
    (fireHistory t p s).history = s.history ∧
    ∀ e ∈ s.history, e.amount ≠ 0 := by
  refine ⟨?_, history_amounts_ne_zero s hs⟩
  by_cases hp : p = 1
  · subst hp
    simp only [bufferOf, if_pos] at hb
    simp [fireHistory, hb]
  · simp only [bufferOf, if_neg hp] at hb
    simp [fireHistory, hp, hb]

/-- Witness for C6: the burst +3 then -3 for player 1 leaves a zero buffer
and its expiry appends no entry. -/
theorem claim_C6_witness :
    bufferOf 1 (updateLife 100 1 (-3) (updateLife 0 1 3 (initState 0))) = 0 ∧
    (fireHistory 2100 1 (updateLife 100 1 (-3)
        (updateLife 0 1 3 (initState 0)))).history
      = (updateLife 100 1 (-3) (updateLife 0 1 3 (initState 0))).history := by
  have h := claim_C6 2100 1 (updateLife 100 1 (-3) (updateLife 0 1 3 (initState 0)))
    (Reachable.update _ 100 1 (-3) (Reachable.update _ 0 1 3 (Reachable.start 0)))
    (by decide)
  exact ⟨by decide, h.1⟩

/-- C7: updateLife for player 1 leaves player 2's life, pending delta,
history buffer and both timer deadlines unchanged, and symmetrically for a
player 2 update. -/
theorem claim_C7 (now : Nat) (a : Int) (s : GameState) :
    (updateLife now 1 a s).p2Life = s.p2Life ∧
    (updateLife now 1 a s).p2Change = s.p2Change ∧
    (updateLife now 1 a s).historyBufferP2 = s.historyBufferP2 ∧
    (updateLife now 1 a s).changeTimeoutP2 = s.changeTimeoutP2 ∧
    (updateLife now 1 a s).historyTimeoutP2 = s.historyTimeoutP2 ∧
    (updateLife now 2 a s).p1Life = s.p1Life ∧
    (updateLife now 2 a s).p1Change = s.p1Change ∧
    (updateLife now 2 a s).historyBufferP1 = s.historyBufferP1 ∧
    (updateLife now 2 a s).changeTimeoutP1 = s.changeTimeoutP1 ∧
    (updateLife now 2 a s).historyTimeoutP1 = s.historyTimeoutP1 := by
  simp [updateLife, showChange, scheduleHistory]

/-- C8: updateLife adds its amount to the player's life immediately and
without bounds; and in the concrete scenario with start life 20 for both
players, updateLife(1, -5) reads back 15 at once and, 2000ms later with no
further player-1 delta, the history holds exactly the entry with player 1,
amount -5 and resulting life 15. -/
theorem claim_C8 (now p : Nat) (a : Int) (s : GameState)
    (hp : p = 1 ∨ p = 2) (ha : a ≠ 0) :
    lifeOf p (updateLife now p a s) = (lifeOf p s).add a ∧
    lifeOf 1 (updateLife 0 1 (-5)
        (setStartLife 2 "20" (setStartLife 1 "20" (initState 0)))) = JNum.int 15 ∧
    (runUntil 2000 (updateLife 0 1 (-5)
        (setStartLife 2 "20" (setStartLife 1 "20" (initState 0))))).history
      = [⟨1, -5, JNum.int 15, 2000⟩] := by
  refine ⟨?_, by decide, by decide⟩
  rcases hp with rfl | rfl <;>
    simp [updateLife, showChange, scheduleHistory, lifeOf]

/-- Witness for the universal part of C8 at player 1 and amount -5. -/
theorem claim_C8_witness :
    ((1:Nat) = 1 ∨ (1:Nat) = 2) ∧ ((-5:Int) ≠ 0) ∧
    lifeOf 1 (updateLife 0 1 (-5) (initState 0)) = (lifeOf 1 (initState 0)).add (-5) := by
  exact ⟨Or.inl rfl, by decide,
    (claim_C8 0 1 (-5) (initState 0) (Or.inl rfl) (by decide)).1⟩

/-- C9: counterexample to the claim as stated.  The constructor sets the
default start life to 40, not 20, for both players. -/
theorem claim_C9_counterexample :
    (initState 0).p1StartLife ≠ JNum.int 20 ∧
    (initState 0).p2StartLife ≠ JNum.int 20 := by
  decide

/-- C9 (amended): at construction, for every base hue, the default
startLife of both players is 40 and currentLife equals it. -/
theorem claim_C9_amended (h : Nat) :
    (initState h).p1StartLife = JNum.int 40 ∧
    (initState h).p2StartLife = JNum.int 40 ∧
    (initState h).p1Life = (initState h).p1StartLife ∧
    (initState h).p2Life = (initState h).p2StartLife :=
  ⟨rfl, rfl, rfl, rfl⟩

/-- C10: for every base hue below 360 the two construction colors share
saturation 85 and lightness 50, player 2's hue is the base hue shifted by
180 modulo 360, the two colors are distinct, and no operation (updateLife,
reset, setStartLife) ever changes either color. -/
theorem claim_C10 (h : Nat) (hh : h < 360) :
    (initState h).p1Color.sat = 85 ∧ (initState h).p2Color.sat = 85 ∧
    (initState h).p1Color.light = 50 ∧ (initState h).p2Color.light = 50 ∧
    (initState h).p1Color.hue = h ∧
    (initState h).p2Color.hue = (h + 180) % 360 ∧
    (initState h).p1Color ≠ (initState h).p2Color ∧
    (∀ now p a s, (updateLife now p a s).p1Color = s.p1Color ∧
        (updateLife now p a s).p2Color = s.p2Color) ∧
    (∀ s, (reset s).p1Color = s.p1Color ∧ (reset s).p2Color = s.p2Color) ∧
    (∀ p v s, (setStartLife p v s).p1Color = s.p1Color ∧
        (setStartLife p v s).p2Color = s.p2Color) := by
  refine ⟨rfl, rfl, rfl, rfl, rfl, rfl, ?_, ?_, ?_, ?_⟩
  · intro hc
    exact hue_shift_ne h hh (congrArg HSL.hue hc).symm
  · exact fun now p a s => updateLife_colors now p a s
  · exact fun s => ⟨rfl, rfl⟩
  · intro p v s
    by_cases hp : p = 1 <;> simp [setStartLife, reset, hp]

/-- Witness for C10 at base hue 0. -/
theorem claim_C10_witness :
    (0:Nat) < 360 ∧ (initState 0).p1Color ≠ (initState 0).p2Color := by
  exact ⟨by decide, (claim_C10 0 (by decide)).2.2.2.2.2.2.1⟩

/-- C4: with player-1 deltas at t = 0 and t = 1000 whose sum is non-zero,
each delta restarts both windows (deadlines 2000/3000 after the first
call, 3000/4000 after the second), nothing fires before t = 3000, the
history flush fires at t = 3000 carrying the combined sum and the life at
flush time while the display is still pending, and the display clears at
t = 4000, strictly after the flush, leaving the single coalesced entry. -/
theorem claim_C4 (a b : Int) (hab : a + b ≠ 0) :
    (updateLife 0 1 a (initState 0)).historyTimeoutP1 = some 2000 ∧
    (updateLife 0 1 a (initState 0)).changeTimeoutP1 = some 3000 ∧
    (updateLife 1000 1 b (updateLife 0 1 a (initState 0))).historyTimeoutP1
      = some 3000 ∧
    (updateLife 1000 1 b (updateLife 0 1 a (initState 0))).changeTimeoutP1
      = some 4000 ∧
    runUntil 2999 (updateLife 1000 1 b (updateLife 0 1 a (initState 0)))
      = updateLife 1000 1 b (updateLife 0 1 a (initState 0)) ∧
    (runUntil 3000 (updateLife 1000 1 b (updateLife 0 1 a (initState 0)))).history
      = [⟨1, a + b, JNum.int (40 + a + b), 3000⟩] ∧
    (runUntil 3000 (updateLife 1000 1 b (updateLife 0 1 a (initState 0)))).p1Change
      = a + b ∧
    (runUntil 3000 (updateLife 1000 1 b (updateLife 0 1 a (initState 0)))).changeTimeoutP1
      = some 4000 ∧
    runUntil 3999 (runUntil 3000 (updateLife 1000 1 b (updateLife 0 1 a (initState 0))))
      = runUntil 3000 (updateLife 1000 1 b (updateLife 0 1 a (initState 0))) ∧
    (runUntil 4000 (updateLife 1000 1 b (updateLife 0 1 a (initState 0)))).p1Change
      = 0 ∧
    (runUntil 4000 (updateLife 1000 1 b (updateLife 0 1 a (initState 0)))).history
      = [⟨1, a + b, JNum.int (40 + a + b), 3000⟩] := by
  have h2 : updateLife 1000 1 b (updateLife 0 1 a (initState 0)) =
      { p1Color := ⟨0, 85, 50⟩, p2Color := ⟨180, 85, 50⟩,
        p1StartLife := JNum.int 40, p2StartLife := JNum.int 40,
        p1Life := JNum.int (40 + a + b), p2Life := JNum.int 40,
        history := [], p1Change := a + b, p2Change := 0,
        changeTimeoutP1 := some 4000, changeTimeoutP2 := none,
        historyBufferP1 := a + b, historyBufferP2 := 0,
        historyTimeoutP1 := some 3000, historyTimeoutP2 := none } := by
    simp [updateLife, showChange, scheduleHistory, initState, JNum.add]
  have h3 : runUntil 3000 (updateLife 1000 1 b (updateLife 0 1 a (initState 0))) =
      { p1Color := ⟨0, 85, 50⟩, p2Color := ⟨180, 85, 50⟩,
        p1StartLife := JNum.int 40, p2StartLife := JNum.int 40,
        p1Life := JNum.int (40 + a + b), p2Life := JNum.int 40,
        history := [⟨1, a + b, JNum.int (40 + a + b), 3000⟩],
        p1Change := a + b, p2Change := 0,
        changeTimeoutP1 := some 4000, changeTimeoutP2 := none,
        historyBufferP1 := 0, historyBufferP2 := 0,
        historyTimeoutP1 := none, historyTimeoutP2 := none } := by
    rw [h2]
    simp [runUntil, runAux, pendingAt, pickMin, fireTag, fireHistory, hab]
  have h4 : runUntil 4000 (updateLife 1000 1 b (updateLife 0 1 a (initState 0))) =
      { p1Color := ⟨0, 85, 50⟩, p2Color := ⟨180, 85, 50⟩,
        p1StartLife := JNum.int 40, p2StartLife := JNum.int 40,
        p1Life := JNum.int (40 + a + b), p2Life := JNum.int 40,
        history := [⟨1, a + b, JNum.int (40 + a + b), 3000⟩],
        p1Change := 0, p2Change := 0,
        changeTimeoutP1 := none, changeTimeoutP2 := none,
        historyBufferP1 := 0, historyBufferP2 := 0,
        historyTimeoutP1 := none, historyTimeoutP2 := none } := by
    rw [h2]
    simp [runUntil, runAux, pendingAt, pickMin, fireTag, fireHistory, fireChange, hab]
  refine ⟨rfl, rfl, ?_, ?_, ?_, ?_, ?_, ?_, ?_, ?_, ?_⟩
  · rw [h2]
  · rw [h2]
  · rw [h2]; rfl
  · rw [h3]
  · rw [h3]
  · rw [h3]
  · rw [h3]; rfl
  · rw [h4]
  · rw [h4]

/-- Witness for C4 with deltas 3 and 4. -/
theorem claim_C4_witness :
    ((3:Int) + 4 ≠ 0) ∧
    (runUntil 3000 (updateLife 1000 1 4 (updateLife 0 1 3 (initState 0)))).history
      = [⟨1, 3 + 4, JNum.int (40 + 3 + 4), 3000⟩] := by
  exact ⟨by decide, (claim_C4 3 4 (by decide)).2.2.2.2.2.1⟩
